import Mathlib

/-!
Verification of the openrefine-client repository: a shallow embedding of
`google/refine/__main__.py` (the CLI entry point) and, for the client-library
layer that the tests in `google/test/test_refine.py` exercise but whose
module is not part of the sources at hand, a model built from the
specification's data-model and testable-properties sections.

Conventions of the embedding:
  * Python `None`-able values become `Option`; `store_true` flags become `Bool`.
  * Python dicts are modelled by their lookup function `String → Option PyVal`;
    a dict comprehension becomes a function, and `dict.update` becomes
    right-biased overriding of lookup functions.
  * Python truthiness of an optional string (`if options.x:`) is
    `none ↦ false`, `some s ↦ s ≠ ""`.
  * `main` is modelled as a function from the parsed options (and the server's
    project list, which the name-resolution step consults) to an `Effect`
    describing the single façade (`cli`) call the invocation performs, or the
    error/exception it ends in.
  * The argparse dests `export` and `prefix` are Lean keywords; the fields are
    named `export_` and `prefix_`, everything else keeps the Python name.
-/

namespace OpenRefineClient

/-- A Python value as it can appear among the parsed-option values that
`main` forwards as keyword arguments: strings, ints, bools, and the
`action='append'` accumulations of ints or strings. -/
inductive PyVal where
  | vStr : String → PyVal
  | vInt : Int → PyVal
  | vBool : Bool → PyVal
  | vIntList : List Int → PyVal
  | vStrList : List String → PyVal
deriving DecidableEq

/-- The parsed argparse namespace of `__main__.py`: one field per `dest`. -/
structure Options where
  host : Option String := none
  port : Option String := none
  create : Option String := none
  list : Bool := false
  download : Option String := none
  project_id : Option String := none
  delete : Bool := false
  apply : Option String := none
  export_ : Bool := false
  output : Option String := none
  template : Option String := none
  info : Bool := false
  file_format : Option String := none
  columnWidths : Option (List Int) := none
  encoding : Option String := none
  guessCellValueTypes : Option String := none
  headerLines : Option Int := none
  ignoreLines : Option Int := none
  includeFileSources : Option String := none
  limit : Option Int := none
  linesPerRow : Option Int := none
  processQuotes : Option String := none
  projectName : Option String := none
  projectTags : Option (List String) := none
  recordPath : Option (List String) := none
  separator : Option String := none
  sheets : Option (List Int) := none
  skipDataLines : Option Int := none
  storeBlankCellsAsNulls : Option String := none
  storeBlankRows : Option String := none
  storeEmptyStrings : Option String := none
  trimStrings : Option String := none
  mode : Option String := none
  prefix_ : Option String := none
  rowSeparator : Option String := none
  suffix : Option String := none
  filterQuery : Option String := none
  filterColumn : Option String := none
  facets : Option String := none
  splitToFiles : Option String := none
  suffixById : Option String := none

/-- Truthiness of an optional string, as Python evaluates `if options.x:`. -/
def truthyS : Option String → Bool
  | none => false
  | some s => s ≠ ""

/-- The string carried by a truthy optional-string option. -/
def getS : Option String → String
  | none => ""
  | some s => s

/-- Python `str.isdigit`: nonempty and every character a digit. -/
def strIsdigit (s : String) : Bool :=
  !s.data.isEmpty && s.data.all Char.isDigit

/-- A Python dict, modelled by its lookup function. -/
def PyDict := String → Option PyVal

/-- `d1.update(d2)`: lookups in `d2` win. -/
def dictUpdate (d1 d2 : PyDict) : PyDict :=
  fun k => match d2 k with
    | some v => some v
    | none => d1 k

/-- A one-entry dict `{k: v}`. -/
def dictSingle (k : String) (v : PyVal) : PyDict :=
  fun k' => if k' = k then some v else none

/-- `{k: v for k, v in arg_dict.items() if v is not None and v not in ['true', 'false']}`
(the base comprehension of the kwargs construction, lines 231-232 / 250-251). -/
def kwargsBase (d : String → Option PyVal) : PyDict :=
  fun k => match d k with
    | none => none
    | some v =>
        if v = PyVal.vStr "true" ∨ v = PyVal.vStr "false" then none else some v

/-- `{k: True for k, v in arg_dict.items() if v == 'true'}` (lines 233-234 / 252-253). -/
def kwargsTrue (d : String → Option PyVal) : PyDict :=
  fun k => if d k = some (PyVal.vStr "true") then some (PyVal.vBool true) else none

/-- `{k: False for k, v in arg_dict.items() if v == 'false'}` (lines 235-236 / 254-255). -/
def kwargsFalse (d : String → Option PyVal) : PyDict :=
  fun k => if d k = some (PyVal.vStr "false") then some (PyVal.vBool false) else none

/-- The kwargs dict built from an `arg_dict`: the base comprehension, then the
two `update` calls converting the strings `'true'`/`'false'` to booleans. -/
def mkKwargs (d : String → Option PyVal) : PyDict :=
  dictUpdate (dictUpdate (kwargsBase d) (kwargsTrue d)) (kwargsFalse d)

/-- `arg_dict = {arg.dest: getattr(options, arg.dest) for arg in CreateGroup._group_actions}`:
the create-group dests in declaration order, each mapped to its parsed value. -/
def createArgDict (o : Options) : String → Option PyVal := fun k =>
  if k = "columnWidths" then o.columnWidths.map PyVal.vIntList
  else if k = "encoding" then o.encoding.map PyVal.vStr
  else if k = "guessCellValueTypes" then o.guessCellValueTypes.map PyVal.vStr
  else if k = "headerLines" then o.headerLines.map PyVal.vInt
  else if k = "ignoreLines" then o.ignoreLines.map PyVal.vInt
  else if k = "includeFileSources" then o.includeFileSources.map PyVal.vStr
  else if k = "limit" then o.limit.map PyVal.vInt
  else if k = "linesPerRow" then o.linesPerRow.map PyVal.vInt
  else if k = "processQuotes" then o.processQuotes.map PyVal.vStr
  else if k = "projectName" then o.projectName.map PyVal.vStr
  else if k = "projectTags" then o.projectTags.map PyVal.vStrList
  else if k = "recordPath" then o.recordPath.map PyVal.vStrList
  else if k = "separator" then o.separator.map PyVal.vStr
  else if k = "sheets" then o.sheets.map PyVal.vIntList
  else if k = "skipDataLines" then o.skipDataLines.map PyVal.vInt
  else if k = "storeBlankCellsAsNulls" then o.storeBlankCellsAsNulls.map PyVal.vStr
  else if k = "storeBlankRows" then o.storeBlankRows.map PyVal.vStr
  else if k = "storeEmptyStrings" then o.storeEmptyStrings.map PyVal.vStr
  else if k = "trimStrings" then o.trimStrings.map PyVal.vStr
  else none

/-- `arg_dict` over `TemplateGroup._group_actions` (lines 248-249). -/
def templateArgDict (o : Options) : String → Option PyVal := fun k =>
  if k = "mode" then o.mode.map PyVal.vStr
  else if k = "prefix" then o.prefix_.map PyVal.vStr
  else if k = "rowSeparator" then o.rowSeparator.map PyVal.vStr
  else if k = "suffix" then o.suffix.map PyVal.vStr
  else if k = "filterQuery" then o.filterQuery.map PyVal.vStr
  else if k = "filterColumn" then o.filterColumn.map PyVal.vStr
  else if k = "facets" then o.facets.map PyVal.vStr
  else if k = "splitToFiles" then o.splitToFiles.map PyVal.vStr
  else if k = "suffixById" then o.suffixById.map PyVal.vStr
  else none

/-- The kwargs the create branch passes to `cli.create` (lines 229-238):
the converted create-group arg_dict, then `project_format` when
`options.file_format` is truthy. -/
def createKwargs (o : Options) : PyDict :=
  if truthyS o.file_format then
    dictUpdate (mkKwargs (createArgDict o))
      (dictSingle "project_format" (PyVal.vStr (getS o.file_format)))
  else mkKwargs (createArgDict o)

/-- The kwargs the template branch computes (lines 248-257); the branch then
falls off the end of `main` without passing them to any `cli` call. -/
def templateKwargs (o : Options) : PyDict :=
  if truthyS o.file_format then
    dictUpdate (mkKwargs (templateArgDict o))
      (dictSingle "project_format" (PyVal.vStr (getS o.file_format)))
  else mkKwargs (templateArgDict o)

/-- The per-value effect of the three-step kwargs construction: the strings
`"true"`/`"false"` become booleans, everything else is kept as is. -/
def pyConvert (v : PyVal) : PyVal :=
  if v = PyVal.vStr "true" then PyVal.vBool true
  else if v = PyVal.vStr "false" then PyVal.vBool false
  else v

/-- The conversion claim C7 describes on one string option value. -/
def pyStrToVal (s : String) : PyVal :=
  if s = "true" then PyVal.vBool true
  else if s = "false" then PyVal.vBool false
  else PyVal.vStr s

/-- The create-verb keyword arguments as claim C7 describes them: each
create-group flag set on the command line appears under its own name, with
the string values `"true"`/`"false"` converted to the booleans, options left
unset omitted, and `--format` under the key `project_format`. -/
def createKwargsClaimed (o : Options) : PyDict := fun k =>
  if k = "columnWidths" then o.columnWidths.map PyVal.vIntList
  else if k = "encoding" then o.encoding.map pyStrToVal
  else if k = "guessCellValueTypes" then o.guessCellValueTypes.map pyStrToVal
  else if k = "headerLines" then o.headerLines.map PyVal.vInt
  else if k = "ignoreLines" then o.ignoreLines.map PyVal.vInt
  else if k = "includeFileSources" then o.includeFileSources.map pyStrToVal
  else if k = "limit" then o.limit.map PyVal.vInt
  else if k = "linesPerRow" then o.linesPerRow.map PyVal.vInt
  else if k = "processQuotes" then o.processQuotes.map pyStrToVal
  else if k = "projectName" then o.projectName.map pyStrToVal
  else if k = "projectTags" then o.projectTags.map PyVal.vStrList
  else if k = "recordPath" then o.recordPath.map PyVal.vStrList
  else if k = "separator" then o.separator.map pyStrToVal
  else if k = "sheets" then o.sheets.map PyVal.vIntList
  else if k = "skipDataLines" then o.skipDataLines.map PyVal.vInt
  else if k = "storeBlankCellsAsNulls" then o.storeBlankCellsAsNulls.map pyStrToVal
  else if k = "storeBlankRows" then o.storeBlankRows.map pyStrToVal
  else if k = "storeEmptyStrings" then o.storeEmptyStrings.map pyStrToVal
  else if k = "trimStrings" then o.trimStrings.map pyStrToVal
  else if k = "project_format" then
    (if truthyS o.file_format then some (PyVal.vStr (getS o.file_format)) else none)
  else none

/-- The observable outcome of one `main` invocation: which façade (`cli`)
call it performs, or how it terminates without one. -/
inductive Effect where
  /-- `cli.ls()` -/
  | ls
  /-- `cli.download(url, output_file=...)` -/
  | download (url : String) (output_file : Option String)
  /-- `cli.create(file, **kwargs)` -/
  | create (file : String) (kwargs : PyDict)
  /-- `cli.info(project_id)` -/
  | info (project_id : String)
  /-- `cli.delete(project_id)` -/
  | delete (project_id : String)
  /-- `cli.apply(project_id, file)` -/
  | apply (project_id : String) (file : String)
  /-- `cli.export(project_id, output_file=..., export_format=...)` -/
  | export_ (project_id : String) (output_file : Option String)
      (export_format : Option String)
  /-- `parser.print_help()` -/
  | printHelp
  /-- the ambiguous-name error path (lines 208-214): prints the number of
  matches and then `cli.info(i)` for each matching id, and returns -/
  | errorAmbiguous (count : Nat) (ids : List String)
  /-- the no-match error path (lines 218-221): prints the error and returns -/
  | errorNotFound (name : String)
  /-- reading the local `project_id` although no branch ever assigned it:
  Python raises `UnboundLocalError` -/
  | unboundLocalError
  /-- `main` returns without performing any call (the template branch) -/
  | noop

/-- Outcome of the project-id resolution block (lines 199-221). -/
inductive ResolveOutcome where
  /-- `options.project_id` was falsy: the local `project_id` stays unassigned -/
  | unassigned
  /-- `project_id` was assigned this value -/
  | assigned (pid : String)
  /-- more than one project matched the name: error printed, `main` returns -/
  | ambiguousReturn (count : Nat) (ids : List String)
  /-- no project matched the name: error printed, `main` returns -/
  | notFoundReturn (name : String)

/-- The ids of the server projects whose name equals `s` (the `idlist` loop,
lines 204-207), in server order. -/
def matchingIds (projects : List (String × String)) (s : String) : List String :=
  projects.filterMap (fun p => if s = p.2 then some p.1 else none)

/-- Lines 199-221 of `main`: resolve `options.project_id` against the
server's project list (`projects` is the id/name list that
`list_projects().items()` yields). -/
def resolveProjectId (projects : List (String × String)) :
    Option String → ResolveOutcome
  | none => ResolveOutcome.unassigned
  | some s =>
      if strIsdigit s then ResolveOutcome.assigned s
      else if s ≠ "" then
        let idlist := matchingIds projects s
        if 1 < idlist.length then
          ResolveOutcome.ambiguousReturn idlist.length idlist
        else
          match idlist with
          | [] => ResolveOutcome.notFoundReturn s
          | pid :: _ => ResolveOutcome.assigned pid
      else ResolveOutcome.unassigned

/-- Evaluate a use of the local `project_id`: if it was never assigned the
call raises `UnboundLocalError` before any request is made. -/
def withPid : Option String → (String → Effect) → Effect
  | some pid, f => f pid
  | none, _ => Effect.unboundLocalError

/-- The command dispatch of `main` (lines 224-262), given the resolved
project id (`none` when the local variable was never assigned). -/
def dispatch (o : Options) (pid? : Option String) : Effect :=
  if o.list then Effect.ls
  else if truthyS o.download then Effect.download (getS o.download) o.output
  else if truthyS o.create then Effect.create (getS o.create) (createKwargs o)
  else if o.info then withPid pid? (fun pid => Effect.info pid)
  else if o.delete then withPid pid? (fun pid => Effect.delete pid)
  else if truthyS o.apply then withPid pid? (fun pid => Effect.apply pid (getS o.apply))
  else if truthyS o.template then
    -- lines 248-257 compute the kwargs dict and then do nothing with it
    let _kwargs := templateKwargs o
    Effect.noop
  else if o.export_ || truthyS o.output then
    withPid pid? (fun pid => Effect.export_ pid o.output o.file_format)
  else Effect.printHelp

/-- `main` (after argument parsing): project-id resolution, then command
dispatch. -/
def runMain (projects : List (String × String)) (o : Options) : Effect :=
  match resolveProjectId projects o.project_id with
  | ResolveOutcome.ambiguousReturn n ids => Effect.errorAmbiguous n ids
  | ResolveOutcome.notFoundReturn s => Effect.errorNotFound s
  | ResolveOutcome.unassigned => dispatch o none
  | ResolveOutcome.assigned pid => dispatch o (some pid)

/-! ## The client-library layer, modelled from the spec

The module `google/refine/refine.py` (classes `RefineServer`, `Refine`,
`RefineProject`, `Facet`, `Engine`) is exercised by `google/test/test_refine.py`
but its source is not among the files at hand, so the layer is modelled from
the specification's data-model section ("a Project (id, name, columns, key
column), a Row (index, cell values, flags), a Facet/Choice (label, count), and
an Engine (the current set of active facets/filters)"), its glossary ("Facet: a
server-computed aggregation over a column's values. Engine: the active set of
facets/filters applied to a project's rows"), and the request/response shapes
the tests assert. -/

/-- A row's cells, one optional value per column (`none` is a blank cell). -/
abbrev Cells := List (Option String)

/-- Modelled from the spec: a Project as the client sees it — id, the column
list as imported, and the rows held by the server (`refine.py` is missing
from the sources). -/
structure RefineProject where
  project_id : String
  columns : List String
  rows : List Cells
deriving DecidableEq

/-- Modelled from the spec: the project's key column is the first imported
column (the tests expect `duplicates.csv`'s first column `email`). -/
def key_column (p : RefineProject) : String :=
  p.columns.headD ""

/-- Modelled from the spec: `column_index` maps a column name to its position
in the imported column list. -/
def column_index (p : RefineProject) (c : String) : Option Nat :=
  p.columns.findIdx? (fun x => x = c)

/-- Modelled from the spec: a text facet — a column plus the set of included
choice labels (empty = nothing selected, no filtering). -/
structure Facet where
  column : String
  selection : List String
deriving DecidableEq

/-- Modelled from the spec: the Engine is the active set of facets/filters. -/
structure Engine where
  facets : List Facet
deriving DecidableEq

/-- The value of `row`'s cell in column `c` of a project with columns `cols`. -/
def cellValue (cols : List String) (row : Cells) (c : String) : Option String :=
  match cols.findIdx? (fun x => x = c) with
  | some i => (row.get? i).join
  | none => none

/-- Whether a row passes one facet: a facet with no included choices matches
every row; otherwise the cell value must be one of the included choices
(a blank cell matches no inclusion). -/
def facetMatches (cols : List String) (f : Facet) (row : Cells) : Bool :=
  match f.selection with
  | [] => true
  | sel =>
      match cellValue cols row f.column with
      | some v => decide (v ∈ sel)
      | none => false

/-- The rows of `p` that pass every facet of the active engine. -/
def filteredRows (p : RefineProject) (e : Engine) : List Cells :=
  p.rows.filter (fun r => e.facets.all (fun f => facetMatches p.columns f r))

/-- The shape of a `get_rows` response: the rows returned, the echoed limit,
and the server's total and engine-filtered row counts. -/
structure RowsResponse where
  rows : List Cells
  limit : Nat
  total : Nat
  filtered : Nat
deriving DecidableEq

/-- Modelled from the spec: `RefineProject.get_rows(limit)` — the server
returns at most `limit` of the engine-filtered rows, echoes the limit, and
reports the total and filtered row counts. -/
def get_rows (p : RefineProject) (e : Engine) (limit : Nat) : RowsResponse :=
  { rows := (filteredRows p e).take limit
    limit := limit
    total := p.rows.length
    filtered := (filteredRows p e).length }

/-- The response shape of a text facet: the facet name, the count of each
choice label, and the blank-cell count. -/
structure FacetResponse where
  name : String
  choiceCount : String → Nat
  blankCount : Nat

/-- Modelled from the spec: `RefineProject.text_facet` for one facet — "a
server-computed aggregation over a column's values": each choice label's
count is the number of rows holding that value in the facet's column, and
`blank_choice` counts the rows whose cell there is blank. -/
def text_facet (p : RefineProject) (f : Facet) : FacetResponse :=
  { name := f.column
    choiceCount := fun v =>
      (p.rows.filter (fun r => decide (cellValue p.columns r f.column = some v))).length
    blankCount :=
      (p.rows.filter (fun r => decide (cellValue p.columns r f.column = none))).length }

/-- Modelled from the spec: a tabular input file as `new_project` accepts it —
a header row naming the columns, then the data rows. -/
structure TabularFile where
  header : List String
  rows : List Cells
deriving DecidableEq

/-- Modelled from the spec: the server's project store — the hosted projects
plus a counter from which fresh project ids are minted. -/
structure ServerState where
  nextId : Nat
  projects : List RefineProject
deriving DecidableEq

/-- Modelled from the spec: `Refine.list_projects` — the id-indexed dict of
hosted projects, as an association list. -/
def list_projects (s : ServerState) : List (String × RefineProject) :=
  s.projects.map (fun p => (p.project_id, p))

/-- Modelled from the spec: `Refine.new_project(file)` — the server imports
the file under a fresh id and the client gets the new `RefineProject` back. -/
def new_project (s : ServerState) (f : TabularFile) : RefineProject × ServerState :=
  let p : RefineProject :=
    { project_id := toString s.nextId, columns := f.header, rows := f.rows }
  (p, { nextId := s.nextId + 1, projects := s.projects ++ [p] })

/-- Modelled from the spec: `RefineProject.delete()` — the server drops the
project and the call reports success. -/
def deleteProject (s : ServerState) (pid : String) : Bool × ServerState :=
  (true, { nextId := s.nextId
           projects := s.projects.filter (fun p => decide (p.project_id ≠ pid)) })

/-- Modelled from the spec/tests: the header of the test fixture
`google/test/data/duplicates.csv` (the data directory is not among the
sources; the tests assert its key column and column order). -/
def duplicates_csv : TabularFile :=
  { header := ["email", "name", "state", "gender", "purchase"]
    rows :=
      [ [some "danny.baron@example1.com", some "Danny Baron", some "CA",
         some "M", some "TV"]
      , [some "melanie.white@example2.edu", some "Melanie White", some "NC",
         some "F", some "iPhone"] ] }

/-! ### Concrete fixtures used to instantiate the theorems -/

/-- A one-column, three-row project used to instantiate the row-fetch claim. -/
def abcProject : RefineProject :=
  { project_id := "1", columns := ["a"], rows := [[some "x"], [some "y"], [some "z"]] }

/-- The engine with no active facets. -/
def emptyEngine : Engine := { facets := [] }

/-- A one-column project with values D, N, D and one blank, used to
instantiate the faceting claim. -/
def pcProject : RefineProject :=
  { project_id := "1", columns := ["Party Code"]
    rows := [[some "D"], [some "N"], [some "D"], [none]] }

/-- The facet on `Party Code` with the choice `D` included. -/
def pcFacet : Facet := { column := "Party Code", selection := ["D"] }

/-- The engine holding just `pcFacet`. -/
def pcEngine : Engine := { facets := [pcFacet] }

/-- A server hosting one project, used to instantiate the delete claim. -/
def oneProjectServer : ServerState :=
  { nextId := 8, projects := [{ project_id := "7", columns := ["a"], rows := [] }] }

/-- An empty server store. -/
def emptyServer : ServerState := { nextId := 0, projects := [] }

/-- The parsed options of a `--template` invocation addressing a project by
id. -/
def templateOpts : Options :=
  { project_id := some "1234567890123"
    template := some "a row template" }

/-- The parsed options of `--create duplicates.csv --encoding=UTF-8
--processQuotes=false --headerLines=1 --format=csv`. -/
def createOpts : Options :=
  { create := some "duplicates.csv"
    encoding := some "UTF-8"
    processQuotes := some "false"
    headerLines := some 1
    file_format := some "csv" }

/-- The parsed options of `--delete --project_id dup`. -/
def dupDeleteOpts : Options :=
  { project_id := some "dup"
    delete := true }

/-- The parsed options of a bare `--info` with no `--project_id`. -/
def infoOnlyOpts : Options := { info := true }

/-- The parsed options of `--output deduped.xls --project_id 123`. -/
def outputOnlyOpts : Options :=
  { project_id := some "123"
    output := some "deduped.xls" }

/-- The parsed options of an invocation with no flags at all. -/
def bareOpts : Options := {}

/-! ## Helper lemmas about the kwargs construction -/

theorem mkKwargs_apply (d : String → Option PyVal) (k : String) :
    mkKwargs d k = (d k).map pyConvert := by
  unfold mkKwargs dictUpdate kwargsBase kwargsTrue kwargsFalse pyConvert
  cases h : d k with
  | none => simp
  | some v =>
      by_cases h1 : v = PyVal.vStr "true"
      · subst h1; simp
      · by_cases h2 : v = PyVal.vStr "false"
        · subst h2; simp
        · simp [h1, h2]

theorem map_pyConvert_vStr (a : Option String) :
    (a.map PyVal.vStr).map pyConvert = a.map pyStrToVal := by
  cases a with
  | none => rfl
  | some s =>
      show some (pyConvert (PyVal.vStr s)) = some (pyStrToVal s)
      unfold pyConvert pyStrToVal
      by_cases h1 : s = "true"
      · simp [h1]
      · by_cases h2 : s = "false"
        · simp [h1, h2]
        · simp [h1, h2]

theorem map_pyConvert_vInt (a : Option Int) :
    (a.map PyVal.vInt).map pyConvert = a.map PyVal.vInt := by
  cases a <;> rfl

theorem map_pyConvert_vIntList (a : Option (List Int)) :
    (a.map PyVal.vIntList).map pyConvert = a.map PyVal.vIntList := by
  cases a <;> rfl

theorem map_pyConvert_vStrList (a : Option (List String)) :
    (a.map PyVal.vStrList).map pyConvert = a.map PyVal.vStrList := by
  cases a <;> rfl

theorem createKwargs_apply (o : Options) (k : String) :
    createKwargs o k =
      if k = "project_format" then
        (if truthyS o.file_format then some (PyVal.vStr (getS o.file_format)) else none)
      else (createArgDict o k).map pyConvert := by
  unfold createKwargs dictUpdate dictSingle
  by_cases hf : truthyS o.file_format = true
  · simp only [hf, if_true]
    by_cases hk : k = "project_format"
    · simp [hk]
    · simp [hk, mkKwargs_apply]
  · rw [Bool.not_eq_true] at hf
    simp only [hf, Bool.false_eq_true, if_false]
    by_cases hk : k = "project_format"
    · subst hk
      rw [if_pos rfl, mkKwargs_apply]
      rfl
    · rw [if_neg hk, mkKwargs_apply]

set_option maxHeartbeats 1600000 in
theorem createKwargs_eq_claimed (o : Options) (k : String) :
    createKwargs o k = createKwargsClaimed o k := by
  rw [createKwargs_apply]
  by_cases hk : k = "project_format"
  · subst hk
    rw [if_pos rfl]
    rfl
  · rw [if_neg hk]
    rcases eq_or_ne k "columnWidths" with h | h1
    · subst h; exact map_pyConvert_vIntList o.columnWidths
    rcases eq_or_ne k "encoding" with h | h2
    · subst h; exact map_pyConvert_vStr o.encoding
    rcases eq_or_ne k "guessCellValueTypes" with h | h3
    · subst h; exact map_pyConvert_vStr o.guessCellValueTypes
    rcases eq_or_ne k "headerLines" with h | h4
    · subst h; exact map_pyConvert_vInt o.headerLines
    rcases eq_or_ne k "ignoreLines" with h | h5
    · subst h; exact map_pyConvert_vInt o.ignoreLines
    rcases eq_or_ne k "includeFileSources" with h | h6
    · subst h; exact map_pyConvert_vStr o.includeFileSources
    rcases eq_or_ne k "limit" with h | h7
    · subst h; exact map_pyConvert_vInt o.limit
    rcases eq_or_ne k "linesPerRow" with h | h8
    · subst h; exact map_pyConvert_vInt o.linesPerRow
    rcases eq_or_ne k "processQuotes" with h | h9
    · subst h; exact map_pyConvert_vStr o.processQuotes
    rcases eq_or_ne k "projectName" with h | h10
    · subst h; exact map_pyConvert_vStr o.projectName
    rcases eq_or_ne k "projectTags" with h | h11
    · subst h; exact map_pyConvert_vStrList o.projectTags
    rcases eq_or_ne k "recordPath" with h | h12
    · subst h; exact map_pyConvert_vStrList o.recordPath
    rcases eq_or_ne k "separator" with h | h13
    · subst h; exact map_pyConvert_vStr o.separator
    rcases eq_or_ne k "sheets" with h | h14
    · subst h; exact map_pyConvert_vIntList o.sheets
    rcases eq_or_ne k "skipDataLines" with h | h15
    · subst h; exact map_pyConvert_vInt o.skipDataLines
    rcases eq_or_ne k "storeBlankCellsAsNulls" with h | h16
    · subst h; exact map_pyConvert_vStr o.storeBlankCellsAsNulls
    rcases eq_or_ne k "storeBlankRows" with h | h17
    · subst h; exact map_pyConvert_vStr o.storeBlankRows
    rcases eq_or_ne k "storeEmptyStrings" with h | h18
    · subst h; exact map_pyConvert_vStr o.storeEmptyStrings
    rcases eq_or_ne k "trimStrings" with h | h19
    · subst h; exact map_pyConvert_vStr o.trimStrings
    simp only [createArgDict, createKwargsClaimed, if_neg h1, if_neg h2, if_neg h3,
      if_neg h4, if_neg h5, if_neg h6, if_neg h7, if_neg h8, if_neg h9, if_neg h10,
      if_neg h11, if_neg h12, if_neg h13, if_neg h14, if_neg h15, if_neg h16,
      if_neg h17, if_neg h18, if_neg h19, if_neg hk]
    rfl

/-! ## Helper lemmas about the facet model -/

theorem facetMatches_of_nil (cols : List String) (f : Facet) (row : Cells)
    (h : f.selection = []) : facetMatches cols f row = true := by
  unfold facetMatches
  rw [h]

theorem facetMatches_of_single (cols : List String) (f : Facet) (row : Cells)
    (v : String) (h : f.selection = [v]) :
    facetMatches cols f row = decide (cellValue cols row f.column = some v) := by
  unfold facetMatches
  rw [h]
  cases hc : cellValue cols row f.column with
  | none => simp
  | some w => simp [decide_eq_decide, List.mem_singleton]

theorem filteredRows_of_single (p : RefineProject) (e : Engine) (f : Facet)
    (v : String)
    (hmem : f ∈ e.facets)
    (hothers : ∀ g ∈ e.facets, g.selection = [] ∨ g = f)
    (hsel : f.selection = [v]) :
    filteredRows p e
      = p.rows.filter (fun r => decide (cellValue p.columns r f.column = some v)) := by
  unfold filteredRows
  apply List.filter_congr
  intro r _
  by_cases hc : cellValue p.columns r f.column = some v
  · have hall : ∀ g ∈ e.facets, facetMatches p.columns g r = true := by
      intro g hg
      rcases hothers g hg with hg0 | rfl
      · exact facetMatches_of_nil p.columns g r hg0
      · rw [facetMatches_of_single p.columns g r v hsel, hc]
        simp
    rw [List.all_eq_true.mpr hall, hc]
    simp
  · have hf : facetMatches p.columns f r = false := by
      rw [facetMatches_of_single p.columns f r v hsel]
      simp [hc]
    have hall : e.facets.all (fun g => facetMatches p.columns g r) = false := by
      rw [Bool.eq_false_iff]
      intro htrue
      have hft := List.all_eq_true.mp htrue f hmem
      rw [hf] at hft
      exact Bool.false_ne_true hft
    rw [hall]
    simp [hc]

/-! ## Helper lemmas about `runMain` -/

theorem runMain_unassigned (projects : List (String × String)) (o : Options)
    (h : o.project_id = none) : runMain projects o = dispatch o none := by
  unfold runMain
  rw [h]
  rfl

theorem resolveProjectId_digits (projects : List (String × String)) (s : String)
    (h : strIsdigit s = true) :
    resolveProjectId projects (some s) = ResolveOutcome.assigned s := by
  simp only [resolveProjectId]
  rw [if_pos h]

/-! ## The claims -/

/-- C1: the claim says a `--template` invocation performs the documented
templating-export verb with the templating-group options as keyword
arguments. The code contradicts this (and its own `--template` help text
"Export project with templating"): the branch at lines 247-257 builds the
keyword dict and then falls off the end of `main` without calling any `cli`
function, so a `--template` invocation with a resolved project performs no
call at all. -/
theorem c1_template_invocation_performs_no_call :
    runMain [("1234567890123", "duplicates")] templateOpts = Effect.noop := by
  rfl

/-- C2: `get_rows` with a positive limit `n` that does not exceed the row
count visible to the active engine returns exactly `n` rows, echoes `n` as
the limit, and reports the server's total and engine-filtered row counts. -/
theorem c2_get_rows_limit_total_filtered (p : RefineProject) (e : Engine)
    (n : Nat) (_hpos : 0 < n) (hle : n ≤ (filteredRows p e).length) :
    (get_rows p e n).rows.length = n
    ∧ (get_rows p e n).limit = n
    ∧ (get_rows p e n).total = p.rows.length
    ∧ (get_rows p e n).filtered = (filteredRows p e).length := by
  refine ⟨?_, rfl, rfl, rfl⟩
  show ((filteredRows p e).take n).length = n
  rw [List.length_take]
  exact Nat.min_eq_left hle

/-- C2 witness: a three-row project with no active filtering, fetched with
limit 2. -/
theorem c2_get_rows_witness :
    0 < 2
    ∧ 2 ≤ (filteredRows abcProject emptyEngine).length
    ∧ (get_rows abcProject emptyEngine 2).rows.length = 2
    ∧ (get_rows abcProject emptyEngine 2).total = 3
    ∧ (get_rows abcProject emptyEngine 2).filtered = 3 := by
  have h := c2_get_rows_limit_total_filtered abcProject emptyEngine 2
    (by decide) (by decide)
  exact ⟨by decide, by decide, h.1, h.2.2.1.trans (by decide), h.2.2.2.trans (by decide)⟩

/-- C3: each choice count of a text facet equals the server-side aggregation
of the column's values, the blank choice counts the blank cells, and after
the facet (the only one with a selection in the engine) includes one choice,
the filtered count reported by `get_rows` equals that choice's count. -/
theorem c3_text_facet_counts_and_filtering (p : RefineProject) (e : Engine)
    (f : Facet) (v : String) (n : Nat)
    (hmem : f ∈ e.facets)
    (hothers : ∀ g ∈ e.facets, g.selection = [] ∨ g = f)
    (hsel : f.selection = [v]) :
    ((text_facet p f).choiceCount v
        = (p.rows.filter (fun r => decide (cellValue p.columns r f.column = some v))).length)
    ∧ ((text_facet p f).blankCount
        = (p.rows.filter (fun r => decide (cellValue p.columns r f.column = none))).length)
    ∧ (get_rows p e n).filtered = (text_facet p f).choiceCount v := by
  refine ⟨rfl, rfl, ?_⟩
  show (filteredRows p e).length = _
  rw [filteredRows_of_single p e f v hmem hothers hsel]
  rfl

/-- C3 witness: a one-column project with values D, N, D and a blank; the
facet includes the choice D, whose count is 2, and `get_rows` then reports
2 filtered rows. -/
theorem c3_text_facet_witness :
    pcFacet ∈ pcEngine.facets
    ∧ (text_facet pcProject pcFacet).choiceCount "D" = 2
    ∧ (text_facet pcProject pcFacet).blankCount = 1
    ∧ (get_rows pcProject pcEngine 10).filtered
        = (text_facet pcProject pcFacet).choiceCount "D" := by
  have h := c3_text_facet_counts_and_filtering pcProject pcEngine pcFacet "D" 10
    (by decide) (by decide) rfl
  exact ⟨by decide, h.1.trans (by decide), h.2.1.trans (by decide), h.2.2⟩

/-- C4: creating a project from a file yields a `RefineProject` holding the
file's columns, and an immediately subsequent `list_projects` contains the
newly created project. -/
theorem c4_new_project_listed (s : ServerState) (f : TabularFile) :
    (new_project s f).1.columns = f.header
    ∧ ((new_project s f).1.project_id, (new_project s f).1)
        ∈ list_projects (new_project s f).2 := by
  refine ⟨rfl, ?_⟩
  simp [new_project, list_projects]

/-- C5: deleting an existing project reports `True`, and the project's id no
longer appears in the results of subsequent `list_projects` calls. -/
theorem c5_delete_removes_project (s : ServerState) (pid : String)
    (_hex : pid ∈ (list_projects s).map Prod.fst) :
    (deleteProject s pid).1 = true
    ∧ ∀ q ∈ list_projects (deleteProject s pid).2, q.1 ≠ pid := by
  refine ⟨rfl, ?_⟩
  intro q hq
  simp only [list_projects, deleteProject, List.mem_map, List.mem_filter] at hq
  rcases hq with ⟨p, ⟨_, hne⟩, rfl⟩
  simpa using hne

/-- C5 witness: a server with one project, deleted by its id. -/
theorem c5_delete_witness :
    "7" ∈ (list_projects oneProjectServer).map Prod.fst
    ∧ (deleteProject oneProjectServer "7").1 = true
    ∧ ∀ q ∈ list_projects (deleteProject oneProjectServer "7").2, q.1 ≠ "7" := by
  have h := c5_delete_removes_project oneProjectServer "7" (by decide)
  exact ⟨by decide, h.1, h.2⟩

/-- C6: `info` on a project created from a tabular file reports the key
column and columns as imported: the key column is the file's first column
and `column_index` maps each column name to its position in the header. -/
theorem c6_models_key_column_and_columns (s : ServerState) (f : TabularFile)
    (c0 : String) (cs : List String) (h : f.header = c0 :: cs) :
    key_column (new_project s f).1 = c0
    ∧ (new_project s f).1.columns = f.header
    ∧ ∀ c : String, column_index (new_project s f).1 c
        = f.header.findIdx? (fun x => x = c) := by
  refine ⟨?_, rfl, fun c => rfl⟩
  show f.header.headD "" = c0
  rw [h]
  rfl

/-- C6 witness: for `duplicates.csv` the key column is `email`, `email` is
among the columns, and `column_index` maps `name` to 1. -/
theorem c6_duplicates_csv_witness :
    duplicates_csv.header = "email" :: ["name", "state", "gender", "purchase"]
    ∧ key_column (new_project emptyServer duplicates_csv).1 = "email"
    ∧ "email" ∈ (new_project emptyServer duplicates_csv).1.columns
    ∧ column_index (new_project emptyServer duplicates_csv).1 "name" = some 1 := by
  have h := c6_models_key_column_and_columns emptyServer
    duplicates_csv "email" ["name", "state", "gender", "purchase"] rfl
  refine ⟨rfl, h.1, ?_, ?_⟩
  · rw [h.2.1]
    decide
  · rw [h.2.2 "name"]
    decide

/-- C7: a `--create` invocation passes each create-group flag set on the
command line to the create verb as a keyword argument of the same name, with
the string values `'true'`/`'false'` converted to the booleans, unset options
omitted, and `--format` under the key `project_format` — i.e. the kwargs the
code builds agree, key by key, with the dict the claim describes. -/
theorem c7_create_kwargs_forwarding (projects : List (String × String))
    (o : Options) (hcr : truthyS o.create = true) (hpid : o.project_id = none)
    (hl : o.list = false) (hd : truthyS o.download = false) :
    runMain projects o = Effect.create (getS o.create) (createKwargs o)
    ∧ ∀ k, createKwargs o k = createKwargsClaimed o k := by
  constructor
  · rw [runMain_unassigned projects o hpid]
    simp [dispatch, hl, hd, hcr]
  · exact createKwargs_eq_claimed o

/-- C7 witness: `--create duplicates.csv --encoding=UTF-8 --processQuotes=false
--headerLines=1 --format=csv`. -/
theorem c7_create_kwargs_witness :
    truthyS createOpts.create = true
    ∧ runMain [] createOpts = Effect.create "duplicates.csv" (createKwargs createOpts)
    ∧ createKwargs createOpts "encoding" = some (PyVal.vStr "UTF-8")
    ∧ createKwargs createOpts "processQuotes" = some (PyVal.vBool false)
    ∧ createKwargs createOpts "headerLines" = some (PyVal.vInt 1)
    ∧ createKwargs createOpts "project_format" = some (PyVal.vStr "csv")
    ∧ createKwargs createOpts "separator" = none := by
  have h := c7_create_kwargs_forwarding [] createOpts (by decide) rfl rfl rfl
  refine ⟨by decide, h.1, ?_, ?_, ?_, ?_, ?_⟩
  · exact (h.2 "encoding").trans (by decide)
  · exact (h.2 "processQuotes").trans (by decide)
  · exact (h.2 "headerLines").trans (by decide)
  · exact (h.2 "project_format").trans (by decide)
  · exact (h.2 "separator").trans (by decide)

/-- C8: when `--project_id` is a non-numeric name matching more than one
project, `main` prints an error carrying the number of matches, prints the
metadata of each matching project, and returns without executing any
project-affecting command (no delete, apply or export happens). -/
theorem c8_ambiguous_name_aborts (projects : List (String × String))
    (o : Options) (s : String)
    (hpid : o.project_id = some s) (hdig : strIsdigit s = false) (hne : s ≠ "")
    (hmany : 1 < (matchingIds projects s).length) :
    runMain projects o
      = Effect.errorAmbiguous (matchingIds projects s).length (matchingIds projects s)
    ∧ (∀ pid, runMain projects o ≠ Effect.delete pid)
    ∧ (∀ pid file, runMain projects o ≠ Effect.apply pid file)
    ∧ (∀ pid out fmt, runMain projects o ≠ Effect.export_ pid out fmt) := by
  have h0 : resolveProjectId projects o.project_id
      = ResolveOutcome.ambiguousReturn (matchingIds projects s).length
          (matchingIds projects s) := by
    rw [hpid]
    unfold resolveProjectId
    simp [hdig, hne, hmany]
  have h1 : runMain projects o
      = Effect.errorAmbiguous (matchingIds projects s).length (matchingIds projects s) := by
    unfold runMain
    rw [h0]
  refine ⟨h1, ?_, ?_, ?_⟩
  · intro pid hcon
    rw [h1] at hcon
    exact Effect.noConfusion hcon
  · intro pid file hcon
    rw [h1] at hcon
    exact Effect.noConfusion hcon
  · intro pid out fmt hcon
    rw [h1] at hcon
    exact Effect.noConfusion hcon

/-- C8 witness: two projects both named `dup`, addressed by name with
`--delete` requested: the run ends in the ambiguity error and no delete. -/
theorem c8_ambiguous_name_witness :
    runMain [("1", "dup"), ("2", "dup")] dupDeleteOpts
      = Effect.errorAmbiguous 2 ["1", "2"]
    ∧ ∀ pid, runMain [("1", "dup"), ("2", "dup")] dupDeleteOpts
        ≠ Effect.delete pid := by
  have h := c8_ambiguous_name_aborts [("1", "dup"), ("2", "dup")] dupDeleteOpts
    "dup" rfl (by decide) (by decide) (by decide)
  exact ⟨h.1, h.2.1⟩

/-- C9: an invocation that selects a project-requiring command (`--info`,
`--delete`, `--apply`, or `--export`/`--output` with no `--template`) while
`--project_id` is absent reaches the command dispatch with the local
`project_id` never assigned, so it ends in `UnboundLocalError` rather than a
usage message or a request. -/
theorem c9_missing_project_id_unbound (projects : List (String × String))
    (o : Options)
    (hpid : o.project_id = none)
    (hl : o.list = false) (hd : truthyS o.download = false)
    (hc : truthyS o.create = false)
    (hsel : o.info = true ∨ o.delete = true ∨ truthyS o.apply = true
        ∨ (truthyS o.template = false ∧ (o.export_ = true ∨ truthyS o.output = true))) :
    runMain projects o = Effect.unboundLocalError := by
  rw [runMain_unassigned projects o hpid]
  rcases hsel with hi | hdel | happ | ⟨ht, hexp⟩
  · simp [dispatch, hl, hd, hc, hi, withPid]
  · by_cases hi : o.info = true
    · simp [dispatch, hl, hd, hc, hi, withPid]
    · rw [Bool.not_eq_true] at hi
      simp [dispatch, hl, hd, hc, hi, hdel, withPid]
  · by_cases hi : o.info = true
    · simp [dispatch, hl, hd, hc, hi, withPid]
    · rw [Bool.not_eq_true] at hi
      by_cases hdel : o.delete = true
      · simp [dispatch, hl, hd, hc, hi, hdel, withPid]
      · rw [Bool.not_eq_true] at hdel
        simp [dispatch, hl, hd, hc, hi, hdel, happ, withPid]
  · by_cases hi : o.info = true
    · simp [dispatch, hl, hd, hc, hi, withPid]
    · rw [Bool.not_eq_true] at hi
      by_cases hdel : o.delete = true
      · simp [dispatch, hl, hd, hc, hi, hdel, withPid]
      · rw [Bool.not_eq_true] at hdel
        by_cases happ : truthyS o.apply = true
        · simp [dispatch, hl, hd, hc, hi, hdel, happ, withPid]
        · rw [Bool.not_eq_true] at happ
          rcases hexp with he | ho
          · simp [dispatch, hl, hd, hc, hi, hdel, happ, ht, he, withPid]
          · simp [dispatch, hl, hd, hc, hi, hdel, happ, ht, ho, withPid]

/-- C9 witness: `--info` with no `--project_id` ends in the unbound-variable
error. -/
theorem c9_missing_project_id_witness :
    runMain [] infoOnlyOpts = Effect.unboundLocalError := by
  exact c9_missing_project_id_unbound [] infoOnlyOpts rfl rfl rfl rfl (Or.inl rfl)

/-- C10: with `--output` set and no other command selected, the export
command runs with that output file although `--export` was not given;
conversely a bare invocation (no command flags, no `--output`, no
`--project_id`) prints the help text and performs no request. -/
theorem c10_output_exports_and_bare_helps (projects : List (String × String))
    (o : Options) :
    (∀ s, o.project_id = some s → strIsdigit s = true → truthyS o.output = true →
      o.list = false → truthyS o.download = false → truthyS o.create = false →
      o.info = false → o.delete = false → truthyS o.apply = false →
      truthyS o.template = false →
      runMain projects o = Effect.export_ s o.output o.file_format)
    ∧ (o.project_id = none → o.list = false → truthyS o.download = false →
      truthyS o.create = false → o.info = false → o.delete = false →
      truthyS o.apply = false → truthyS o.template = false → o.export_ = false →
      truthyS o.output = false →
      runMain projects o = Effect.printHelp) := by
  constructor
  · intro s hpid hdig hout hl hd hc hi hdel happ ht
    have h0 : resolveProjectId projects o.project_id = ResolveOutcome.assigned s := by
      rw [hpid]
      exact resolveProjectId_digits projects s hdig
    have h1 : runMain projects o = dispatch o (some s) := by
      unfold runMain
      rw [h0]
    rw [h1]
    simp [dispatch, hl, hd, hc, hi, hdel, happ, ht, hout, withPid]
  · intro hpid hl hd hc hi hdel happ ht he ho
    rw [runMain_unassigned projects o hpid]
    simp [dispatch, hl, hd, hc, hi, hdel, happ, ht, he, ho]

/-- C10 witness: `--output deduped.xls --project_id 123` exports although
`--export` was absent, and a bare invocation prints the help. -/
theorem c10_output_exports_witness :
    runMain [] outputOnlyOpts = Effect.export_ "123" (some "deduped.xls") none
    ∧ runMain [] bareOpts = Effect.printHelp := by
  constructor
  · exact (c10_output_exports_and_bare_helps [] outputOnlyOpts).1
      "123" rfl (by decide) (by decide) rfl rfl rfl rfl rfl rfl rfl
  · exact (c10_output_exports_and_bare_helps [] bareOpts).2
      rfl rfl rfl rfl rfl rfl rfl rfl rfl rfl

end OpenRefineClient
